import Mathlib

/-
  Verification development for the alibi-detect documentation snapshot.

  The supplied repository content consists of a development dependency
  manifest (requirements/dev.txt, with the Model Uncertainty notebook
  concatenated into the same file) and the ContextMMDDrift notebook
  (doc/source/cd/methods/contextmmddrift.ipynb).  The executable detector
  implementations (alibi_detect.cd.model_uncertainty and
  alibi_detect.cd.context_aware) are not part of the supplied source, so
  the detector behaviour below is modelled from the specification prose of
  those documents.  Probabilities, p-values and test statistics are
  modelled as rationals; the numeric internals of the external statistical
  routines (Kolmogorov-Smirnov, Chi-Squared, conditional-MMD estimation)
  are abstracted as function-valued configuration fields, since no
  algorithmic detail for them appears anywhere in the supplied source.
-/

namespace AlibiDetect

/-- Metadata section of a drift prediction.  The documents state that the
result of predict is a dictionary with a meta key holding the detector
metadata; the only documented metadata content is the data type optionally
added via the data_type keyword argument. -/
structure DetectorMeta where
  name : String
  data_type : Option String
deriving Repr, DecidableEq

/-- Data section of a prediction of the model-uncertainty detectors.
Modelled from the spec: the Model Uncertainty notebook documents the keys
is_drift (1 or 0), threshold (the user-defined threshold defining the
significance of the test), p_val (present if return_p_val equals True) and
distance (present if return_distance equals True).  A key that is only
conditionally present is modelled as an Option field, present meaning
isSome. -/
structure UncertaintyDriftData where
  is_drift : Nat
  threshold : ℚ
  p_val : Option ℚ
  distance : Option ℚ
deriving Repr, DecidableEq

/-- Prediction of the model-uncertainty detectors: a mapping with a meta
section and a data section. -/
structure UncertaintyDriftPrediction where
  meta : DetectorMeta
  data : UncertaintyDriftData
deriving Repr, DecidableEq

/-- Data section of a ContextMMDDrift prediction.  Modelled from the spec:
the ContextMMDDrift notebook documents the keys is_drift, p_val and
threshold (present if return_p_val equals True), distance and
distance_threshold (the conditional MMD^2 metric and the value from the
permutation test corresponding to the p-value threshold, present if
return_distance equals True), and the coupling matrices coupling_xx,
coupling_yy, coupling_xy (present if return_coupling equals True). -/
structure ContextDriftData where
  is_drift : Nat
  p_val : Option ℚ
  threshold : Option ℚ
  distance : Option ℚ
  distance_threshold : Option ℚ
  coupling_xx : Option (List (List ℚ))
  coupling_yy : Option (List (List ℚ))
  coupling_xy : Option (List (List ℚ))
deriving Repr, DecidableEq

/-- Prediction of the ContextMMDDrift detector: a mapping with a meta
section and a data section. -/
structure ContextDriftPrediction where
  meta : DetectorMeta
  data : ContextDriftData
deriving Repr, DecidableEq

/-- Modelled from the spec: a permutation test is a resampling-based method
for estimating a p-value without parametric assumptions.  Given the
observed realisation of the test statistic and the statistics of the
resampled permutations, the p-value is the proportion of permuted
statistics at least as extreme as the observed one: a pure counting ratio,
free of any parametric distributional assumption. -/
def permutationPValue (stat : ℚ) (permStats : List ℚ) : ℚ :=
  ((permStats.filter (fun s => stat ≤ s)).length : ℚ) / (permStats.length : ℚ)

/-- A test outcome with p-value p is statistically significant at level t
when p falls below t.  Modelled from the spec: drift is a statistically
significant change, and p_val is the p-value used for the significance of
the test. -/
def significantAt (p t : ℚ) : Prop := p < t

instance (p t : ℚ) : Decidable (significantAt p t) := by
  unfold significantAt
  infer_instance

/-- The two documented notions of uncertainty of ClassifierUncertaintyDrift:
the options of the uncertainty_type keyword argument are entropy and
margin. -/
inductive UncertaintyType where
  | entropy
  | margin
deriving Repr, DecidableEq

/-- The two documented two-sample tests used by the model-uncertainty
detectors. -/
inductive TwoSampleTest where
  | kolmogorovSmirnov
  | chiSquared
deriving Repr, DecidableEq

/-- Modelled from the spec: with uncertainty_type entropy a
Kolmogorov-Smirnov two-sample test is performed on the continuous entropy
values, while with uncertainty_type margin a Chi-Squared two-sample test is
performed on the 0-1 flags of uncertainty. -/
def testForUncertainty : UncertaintyType → TwoSampleTest
  | .entropy => .kolmogorovSmirnov
  | .margin => .chiSquared

/-- Class probabilities sorted into descending order, so that the first two
entries are the two highest probabilities. -/
def sortDesc (l : List ℚ) : List ℚ := l.insertionSort (· ≥ ·)

/-- Difference between the highest and the second highest entry of a list
of class probabilities (0 when fewer than two classes are present). -/
def top2diff (l : List ℚ) : ℚ :=
  match sortDesc l with
  | a :: b :: _ => a - b
  | _ => 0

/-- Modelled from the spec: with uncertainty_type margin the model is
considered uncertain on an instance if the highest two class probabilities
it assigns to the instance differ by less than margin_width. -/
def marginUncertain (probs : List ℚ) (margin_width : ℚ) : Bool :=
  decide (top2diff probs < margin_width)

/-- Modelled from the spec: the per-instance uncertainty scores of
ClassifierUncertaintyDrift.  For entropy the continuous entropy of the
predicted label probabilities (the numeric entropy routine is not in the
supplied source and is abstracted as entropyFn); for margin the 0-1 flags
of uncertainty. -/
def uncertaintyScores (ut : UncertaintyType) (entropyFn : List ℚ → ℚ)
    (margin_width : ℚ) (preds : List (List ℚ)) : List ℚ :=
  match ut with
  | .entropy => preds.map entropyFn
  | .margin => preds.map (fun p => if marginUncertain p margin_width then 1 else 0)

/-- Configuration of ClassifierUncertaintyDrift, from the documented
keyword arguments.  The external statistical routines (entropy of a
probability vector, the Kolmogorov-Smirnov and Chi-Squared two-sample
tests, each returning a test statistic and a p-value) are not part of the
supplied source and are abstracted as function fields. -/
structure ClassifierUncertaintyConfig where
  p_val : ℚ
  preds_type : String
  uncertainty_type : UncertaintyType
  margin_width : ℚ
  entropyFn : List ℚ → ℚ
  ksTest : List ℚ → List ℚ → ℚ × ℚ
  chi2Test : List ℚ → List ℚ → ℚ × ℚ
  data_type : Option String

/-- The two-sample test run by ClassifierUncertaintyDrift on the reference
and test uncertainty scores, dispatched on the configured uncertainty
type; the result pairs the test statistic with the p-value. -/
def runUncertaintyTest (cfg : ClassifierUncertaintyConfig)
    (sref stest : List ℚ) : ℚ × ℚ :=
  match testForUncertainty cfg.uncertainty_type with
  | .kolmogorovSmirnov => cfg.ksTest sref stest
  | .chiSquared => cfg.chi2Test sref stest

/-- Reference uncertainty scores of ClassifierUncertaintyDrift: the model
is evaluated on each reference instance and the score of the predicted
probabilities is taken. -/
def classifierRefScores {X : Type} (cfg : ClassifierUncertaintyConfig)
    (model : X → List ℚ) (x_ref : List X) : List ℚ :=
  uncertaintyScores cfg.uncertainty_type cfg.entropyFn cfg.margin_width (x_ref.map model)

/-- The (statistic, p-value) outcome of the two-sample test of
ClassifierUncertaintyDrift on a reference set and a test set. -/
def classifierTestOutcome {X : Type} (cfg : ClassifierUncertaintyConfig)
    (model : X → List ℚ) (x_ref x : List X) : ℚ × ℚ :=
  runUncertaintyTest cfg (classifierRefScores cfg model x_ref) (classifierRefScores cfg model x)

/-- Modelled from the spec: the predict operation of
ClassifierUncertaintyDrift.  The prediction takes the form of a dictionary
with meta and data keys; data holds is_drift (1 if the sample tested has
drifted from the reference data and 0 otherwise), threshold (the
user-defined threshold defining the significance of the test), p_val (the
p-value of the test if return_p_val equals True) and distance (the
test statistic if return_distance equals True). -/
def classifierUncertaintyPredict {X : Type} (cfg : ClassifierUncertaintyConfig)
    (model : X → List ℚ) (x_ref x : List X)
    (return_p_val return_distance : Bool) : UncertaintyDriftPrediction :=
  let r := classifierTestOutcome cfg model x_ref x
  { meta := { name := "ClassifierUncertaintyDrift", data_type := cfg.data_type }
    data :=
      { is_drift := if r.2 < cfg.p_val then 1 else 0
        threshold := cfg.p_val
        p_val := if return_p_val then some r.2 else none
        distance := if return_distance then some r.1 else none } }

/-- Configuration of ContextMMDDrift, from the documented arguments and
keyword arguments.  The kernel conditional mean embedding estimator of the
conditional-MMD^2 statistic, the statistic of a conditionally resampled
permutation, and the computation of the coupling matrices are not part of
the supplied source; they are abstracted as function fields receiving the
configured data kernel, context kernel, the (preprocessed) data windows
and the raw context windows. -/
structure ContextMMDConfig (X C : Type) where
  p_val : ℚ
  n_permutations : Nat
  x_kernel : X → X → ℚ
  c_kernel : C → C → ℚ
  preprocess_fn : Option (X → X)
  cmmd : (X → X → ℚ) → (C → C → ℚ) → List X → List X → List C → List C → ℚ
  permutedStat : (X → X → ℚ) → (C → C → ℚ) → List X → List X → List C → List C → Nat → ℚ
  couplings : (C → C → ℚ) → List C → List C →
      (List (List ℚ)) × (List (List ℚ)) × (List (List ℚ))
  data_type : Option String

/-- Modelled from the spec: the optional preprocessing step.  preprocess_fn
is a function to preprocess the data (x_ref and x); when absent the data
is used as is. -/
def preprocessData {X : Type} (pf : Option (X → X)) (xs : List X) : List X :=
  match pf with
  | none => xs
  | some f => xs.map f

/-- Modelled from the spec: the observed realisation of the
conditional-MMD^2 test statistic.  The data windows are preprocessed by
preprocess_fn before the drift metric is computed; the context windows are
passed to the context kernel unchanged, since preprocessing is not applied
to the context data. -/
def contextMMDStat {X C : Type} (cfg : ContextMMDConfig X C)
    (x_ref x : List X) (c_ref c : List C) : ℚ :=
  cfg.cmmd cfg.x_kernel cfg.c_kernel
    (preprocessData cfg.preprocess_fn x_ref) (preprocessData cfg.preprocess_fn x) c_ref c

/-- Modelled from the spec: the statistics of the conditional permutation
test, one per resampled permutation, n_permutations in total.  Each
resample sees the preprocessed data windows and the raw context windows. -/
def contextMMDPermStats {X C : Type} (cfg : ContextMMDConfig X C)
    (x_ref x : List X) (c_ref c : List C) : List ℚ :=
  (List.range cfg.n_permutations).map
    (cfg.permutedStat cfg.x_kernel cfg.c_kernel
      (preprocessData cfg.preprocess_fn x_ref) (preprocessData cfg.preprocess_fn x) c_ref c)

/-- Modelled from the spec: the p-value of ContextMMDDrift, computed from
the observed realisation of the test statistic by the conditional
permutation test. -/
def contextMMDPValue {X C : Type} (cfg : ContextMMDConfig X C)
    (x_ref x : List X) (c_ref c : List C) : ℚ :=
  permutationPValue (contextMMDStat cfg x_ref x c_ref c)
    (contextMMDPermStats cfg x_ref x c_ref c)

/-- Modelled from the spec: the conditional MMD^2 metric value from the
permutation test which corresponds to the p-value threshold, i.e. the
permuted statistic sitting at the p_val quantile of the descending-sorted
permutation statistics. -/
def distanceThresholdOf (permStats : List ℚ) (pv : ℚ) : ℚ :=
  (sortDesc permStats).getD (Int.toNat ⌊pv * (permStats.length : ℚ)⌋) 0

/-- Modelled from the spec: the predict operation of ContextMMDDrift on a
batch of test instances x and contexts c.  The prediction takes the form
of a dictionary with meta and data keys; data holds is_drift (1 if the
sample tested has drifted from the reference data and 0 otherwise), the
p-value and its threshold if return_p_val equals True, the conditional
MMD^2 metric and its threshold if return_distance equals True, and the
coupling matrices W_ref_ref, W_test_test and W_ref_test if return_coupling
equals True. -/
def contextMMDPredict {X C : Type} (cfg : ContextMMDConfig X C)
    (x_ref x : List X) (c_ref c : List C)
    (return_p_val return_distance return_coupling : Bool) : ContextDriftPrediction :=
  let p := contextMMDPValue cfg x_ref x c_ref c
  let w := cfg.couplings cfg.c_kernel c_ref c
  { meta := { name := "ContextMMDDrift", data_type := cfg.data_type }
    data :=
      { is_drift := if p < cfg.p_val then 1 else 0
        p_val := if return_p_val then some p else none
        threshold := if return_p_val then some cfg.p_val else none
        distance := if return_distance then some (contextMMDStat cfg x_ref x c_ref c) else none
        distance_threshold :=
          if return_distance then
            some (distanceThresholdOf (contextMMDPermStats cfg x_ref x c_ref c) cfg.p_val)
          else none
        coupling_xx := if return_coupling then some w.1 else none
        coupling_yy := if return_coupling then some w.2.1 else none
        coupling_xy := if return_coupling then some w.2.2 else none } }

/-- Modelled from the spec: device resolution of the PyTorch backend. -/
inductive TorchDevice where
  | gpu
  | cpu
deriving Repr, DecidableEq

/-- The device strings the documentation allows for the device keyword
argument: cuda, gpu or cpu. -/
def validDeviceStrings : List String := ["cuda", "gpu", "cpu"]

/-- Modelled from the spec: interpretation of an explicitly specified
device string; cuda and gpu select the GPU, cpu selects the CPU, and no
other string is a documented device. -/
def parseDevice (s : String) : Option TorchDevice :=
  if s = "cuda" then some TorchDevice.gpu
  else if s = "gpu" then some TorchDevice.gpu
  else if s = "cpu" then some TorchDevice.cpu
  else none

/-- Modelled from the spec: if the device is not specified (default None),
the detector tries to leverage the GPU if possible and otherwise falls
back on the CPU; an explicitly specified device is interpreted by
parseDevice. -/
def resolveDevice (device : Option String) (gpuAvailable : Bool) : Option TorchDevice :=
  match device with
  | none => some (if gpuAvailable then TorchDevice.gpu else TorchDevice.cpu)
  | some s => parseDevice s

/-- An operation of the documented detector interface together with the
error conditions the supplied documentation specifies for it. -/
structure DocumentedOperation where
  detector : String
  operation : String
  errorConditions : List String
deriving Repr, DecidableEq

/-- The operations the two supplied notebooks document: initialization and
predict for each of the three described detectors.  No failure behaviour,
raised error or invalid-input response is described anywhere in the
supplied content, so every list of error conditions is empty. -/
def documentedInterface : List DocumentedOperation :=
  [ { detector := "ClassifierUncertaintyDrift", operation := "initialize", errorConditions := [] }
  , { detector := "ClassifierUncertaintyDrift", operation := "predict", errorConditions := [] }
  , { detector := "RegressorUncertaintyDrift", operation := "initialize", errorConditions := [] }
  , { detector := "RegressorUncertaintyDrift", operation := "predict", errorConditions := [] }
  , { detector := "ContextMMDDrift", operation := "initialize", errorConditions := [] }
  , { detector := "ContextMMDDrift", operation := "predict", errorConditions := [] } ]

/-- The literal numeric default values stated by the supplied
documentation: the Model Uncertainty notebook states that batch_size
defaults to 32. -/
def documentedNumericDefaults : List (String × Nat) := [("batch_size", 32)]

/-- Kinds of artifact present in the supplied source. -/
inductive ArtifactKind where
  | dependencyManifest
  | documentationNotebook
  | executableModule
deriving Repr, DecidableEq

/-- An artifact of the supplied source snapshot. -/
structure SourceArtifact where
  path : String
  kind : ArtifactKind
deriving Repr, DecidableEq

/-- The supplied source: the development dependency manifest and the two
documentation notebooks (in the snapshot the Model Uncertainty notebook is
concatenated into requirements/dev.txt after a document separator).  No
artifact carries executable core logic. -/
def suppliedSource : List SourceArtifact :=
  [ { path := "requirements/dev.txt", kind := ArtifactKind.dependencyManifest }
  , { path := "doc/source/cd/methods/modeluncertaintydrift.ipynb"
    , kind := ArtifactKind.documentationNotebook }
  , { path := "doc/source/cd/methods/contextmmddrift.ipynb"
    , kind := ArtifactKind.documentationNotebook } ]

/-- A concrete classifier configuration used to evaluate the model on
explicit inputs (the abstract statistical routines are instantiated with
simple computable stand-ins). -/
def demoClassifierConfig : ClassifierUncertaintyConfig :=
  { p_val := 1/20
    preds_type := "probs"
    uncertainty_type := UncertaintyType.margin
    margin_width := 1/10
    entropyFn := fun l => (l.length : ℚ)
    ksTest := fun a b => ((a.length : ℚ) - (b.length : ℚ), 1/2)
    chi2Test := fun a b => ((a.foldr (· + ·) 0) - (b.foldr (· + ·) 0), 1/100)
    data_type := none }

/-- A concrete binary classifier mapping an input to two class
probabilities. -/
def demoModel (x : ℚ) : List ℚ := [x, 1 - x]

/-- A concrete ContextMMDDrift configuration used to evaluate the model on
explicit inputs. -/
def demoContextConfig : ContextMMDConfig ℚ ℚ :=
  { p_val := 1/20
    n_permutations := 4
    x_kernel := fun a b => a * b
    c_kernel := fun a b => a + b
    preprocess_fn := none
    cmmd := fun _ _ xr xt _ _ => (xr.length : ℚ) - (xt.length : ℚ)
    permutedStat := fun _ _ _ _ _ _ i => (i : ℚ)
    couplings := fun _ cr ct => ([[1]], [[2]], [[(cr.length : ℚ) * (ct.length : ℚ)]])
    data_type := none }

/- Helper lemmas shared by the claim theorems. -/

/-- An if-then-else drift flag only takes the values 0 and 1. -/
theorem ite_flag_mem (c : Prop) [Decidable c] :
    (if c then (1 : Nat) else 0) = 0 ∨ (if c then (1 : Nat) else 0) = 1 := by
  split
  · exact Or.inr rfl
  · exact Or.inl rfl

/-- The drift flag of a ContextMMDDrift prediction is 0 or 1. -/
theorem contextMMD_is_drift_01 {X C : Type} (cfg : ContextMMDConfig X C)
    (x_ref x : List X) (c_ref c : List C) (rp rd rc : Bool) :
    (contextMMDPredict cfg x_ref x c_ref c rp rd rc).data.is_drift = 0 ∨
      (contextMMDPredict cfg x_ref x c_ref c rp rd rc).data.is_drift = 1 := by
  unfold contextMMDPredict
  exact ite_flag_mem _

/-- The drift flag of a ClassifierUncertaintyDrift prediction is 0 or 1. -/
theorem classifier_is_drift_01 {X : Type} (cfg : ClassifierUncertaintyConfig)
    (model : X → List ℚ) (x_ref x : List X) (rp rd : Bool) :
    (classifierUncertaintyPredict cfg model x_ref x rp rd).data.is_drift = 0 ∨
      (classifierUncertaintyPredict cfg model x_ref x rp rd).data.is_drift = 1 := by
  unfold classifierUncertaintyPredict
  exact ite_flag_mem _

/-- A conditionally present key holds some value exactly when its flag is
set. -/
theorem ite_some_isSome {α : Type} (b : Bool) (v : α) :
    (if b then some v else none).isSome = b := by
  cases b <;> rfl

/-- An if-then-else drift flag equals 1 exactly when the condition holds. -/
theorem ite_flag_eq_one (c : Prop) [Decidable c] :
    ((if c then (1 : Nat) else 0) = 1) ↔ c := by
  split <;> simp_all

/-- An if-then-else drift flag equals 0 exactly when the condition fails. -/
theorem ite_flag_eq_zero (c : Prop) [Decidable c] :
    ((if c then (1 : Nat) else 0) = 0) ↔ ¬ c := by
  split <;> simp_all

/-- Claim C1, counterexample: a predict call made with return_p_val equal
to False returns a data section that does not contain the p-value (and for
ContextMMDDrift does not contain the threshold either), so not every
predict call returns a data section containing a p-value. -/
theorem predict_missing_p_val_counterexample :
    ((contextMMDPredict demoContextConfig [1] [2] [3] [4] false false false).data.p_val = none) ∧
    ((contextMMDPredict demoContextConfig [1] [2] [3] [4] false false false).data.threshold = none) ∧
    ((classifierUncertaintyPredict demoClassifierConfig demoModel [0] [1] false false).data.p_val
      = none) :=
  ⟨rfl, rfl, rfl⟩

/-- Claim C1 (amended): every predict result is a mapping with a meta
section and a data section; the data section always contains the drift
flag, which takes only the values 0 and 1, and when the return flags are
set it contains the decision threshold, the p-value, the test statistic
(distance) and optionally the coupling matrices. -/
theorem predict_result_shape {X C Y : Type} (cfg : ContextMMDConfig X C)
    (x_ref x : List X) (c_ref c : List C)
    (ucfg : ClassifierUncertaintyConfig) (model : Y → List ℚ) (y_ref y : List Y) :
    ((contextMMDPredict cfg x_ref x c_ref c true true true).meta.name = "ContextMMDDrift") ∧
    ((contextMMDPredict cfg x_ref x c_ref c true true true).data.is_drift = 0 ∨
      (contextMMDPredict cfg x_ref x c_ref c true true true).data.is_drift = 1) ∧
    ((contextMMDPredict cfg x_ref x c_ref c true true true).data.p_val).isSome = true ∧
    ((contextMMDPredict cfg x_ref x c_ref c true true true).data.threshold).isSome = true ∧
    ((contextMMDPredict cfg x_ref x c_ref c true true true).data.distance).isSome = true ∧
    ((contextMMDPredict cfg x_ref x c_ref c true true true).data.distance_threshold).isSome = true ∧
    ((contextMMDPredict cfg x_ref x c_ref c true true true).data.coupling_xx).isSome = true ∧
    ((contextMMDPredict cfg x_ref x c_ref c true true true).data.coupling_yy).isSome = true ∧
    ((contextMMDPredict cfg x_ref x c_ref c true true true).data.coupling_xy).isSome = true ∧
    ((classifierUncertaintyPredict ucfg model y_ref y true true).meta.name
      = "ClassifierUncertaintyDrift") ∧
    ((classifierUncertaintyPredict ucfg model y_ref y true true).data.is_drift = 0 ∨
      (classifierUncertaintyPredict ucfg model y_ref y true true).data.is_drift = 1) ∧
    ((classifierUncertaintyPredict ucfg model y_ref y true true).data.threshold = ucfg.p_val) ∧
    ((classifierUncertaintyPredict ucfg model y_ref y true true).data.p_val).isSome = true ∧
    ((classifierUncertaintyPredict ucfg model y_ref y true true).data.distance).isSome = true :=
  ⟨rfl, contextMMD_is_drift_01 cfg x_ref x c_ref c true true true,
    rfl, rfl, rfl, rfl, rfl, rfl, rfl, rfl,
    classifier_is_drift_01 ucfg model y_ref y true true, rfl, rfl, rfl⟩

/-- Claim C2: for every predict call the drift flag equals 1 exactly when
the two-sample test found a statistically significant change at the
configured p_val significance level (the p-value of the test falls below
the configured threshold), and equals 0 otherwise. -/
theorem is_drift_iff_significant {X C Y : Type} (cfg : ContextMMDConfig X C)
    (x_ref x : List X) (c_ref c : List C) (rp rd rc : Bool)
    (ucfg : ClassifierUncertaintyConfig) (model : Y → List ℚ) (y_ref y : List Y)
    (rp2 rd2 : Bool) :
    (((contextMMDPredict cfg x_ref x c_ref c rp rd rc).data.is_drift = 1) ↔
        significantAt (contextMMDPValue cfg x_ref x c_ref c) cfg.p_val) ∧
    (((contextMMDPredict cfg x_ref x c_ref c rp rd rc).data.is_drift = 0) ↔
        ¬ significantAt (contextMMDPValue cfg x_ref x c_ref c) cfg.p_val) ∧
    (((classifierUncertaintyPredict ucfg model y_ref y rp2 rd2).data.is_drift = 1) ↔
        significantAt (classifierTestOutcome ucfg model y_ref y).2 ucfg.p_val) ∧
    (((classifierUncertaintyPredict ucfg model y_ref y rp2 rd2).data.is_drift = 0) ↔
        ¬ significantAt (classifierTestOutcome ucfg model y_ref y).2 ucfg.p_val) :=
  ⟨ite_flag_eq_one _, ite_flag_eq_zero _, ite_flag_eq_one _, ite_flag_eq_zero _⟩

/-- Claim C3: each optional result key is present in the data section if
and only if its flag is set: p_val (and for ContextMMDDrift also the
threshold) exactly when return_p_val, distance (and distance_threshold)
exactly when return_distance, and the coupling matrices exactly when
return_coupling. -/
theorem optional_keys_iff_flags {X C Y : Type} (cfg : ContextMMDConfig X C)
    (x_ref x : List X) (c_ref c : List C) (rp rd rc : Bool)
    (ucfg : ClassifierUncertaintyConfig) (model : Y → List ℚ) (y_ref y : List Y)
    (rp2 rd2 : Bool) :
    ((contextMMDPredict cfg x_ref x c_ref c rp rd rc).data.p_val).isSome = rp ∧
    ((contextMMDPredict cfg x_ref x c_ref c rp rd rc).data.threshold).isSome = rp ∧
    ((contextMMDPredict cfg x_ref x c_ref c rp rd rc).data.distance).isSome = rd ∧
    ((contextMMDPredict cfg x_ref x c_ref c rp rd rc).data.distance_threshold).isSome = rd ∧
    ((contextMMDPredict cfg x_ref x c_ref c rp rd rc).data.coupling_xx).isSome = rc ∧
    ((contextMMDPredict cfg x_ref x c_ref c rp rd rc).data.coupling_yy).isSome = rc ∧
    ((contextMMDPredict cfg x_ref x c_ref c rp rd rc).data.coupling_xy).isSome = rc ∧
    ((classifierUncertaintyPredict ucfg model y_ref y rp2 rd2).data.p_val).isSome = rp2 ∧
    ((classifierUncertaintyPredict ucfg model y_ref y rp2 rd2).data.distance).isSome = rd2 :=
  ⟨ite_some_isSome rp _, ite_some_isSome rp _, ite_some_isSome rd _, ite_some_isSome rd _,
    ite_some_isSome rc _, ite_some_isSome rc _, ite_some_isSome rc _,
    ite_some_isSome rp2 _, ite_some_isSome rd2 _⟩

/-- Claim C4: the p-value ContextMMDDrift returns is computed from the
observed realisation of the conditional-MMD^2 statistic by a conditional
permutation test resampling n_permutations permutations; the p-value is a
pure counting proportion of permuted statistics at least as extreme as the
observed one, with no parametric assumption. -/
theorem contextMMD_pvalue_by_permutation_test {X C : Type} (cfg : ContextMMDConfig X C)
    (x_ref x : List X) (c_ref c : List C) (rd rc : Bool) :
    ((contextMMDPredict cfg x_ref x c_ref c true rd rc).data.p_val
      = some (permutationPValue (contextMMDStat cfg x_ref x c_ref c)
          (contextMMDPermStats cfg x_ref x c_ref c))) ∧
    ((contextMMDPermStats cfg x_ref x c_ref c).length = cfg.n_permutations) ∧
    (permutationPValue (contextMMDStat cfg x_ref x c_ref c)
        (contextMMDPermStats cfg x_ref x c_ref c)
      = (((contextMMDPermStats cfg x_ref x c_ref c).filter
            (fun s => contextMMDStat cfg x_ref x c_ref c ≤ s)).length : ℚ)
        / ((contextMMDPermStats cfg x_ref x c_ref c).length : ℚ)) := by
  refine ⟨rfl, ?_, rfl⟩
  unfold contextMMDPermStats
  simp

/-- Claim C5: with uncertainty_type margin an instance is deemed uncertain
exactly when the two highest class probabilities assigned to it (the first
two entries of a descending-sorted permutation of the probability vector)
differ by less than margin_width, the uncertainty scores are 0-1 flags,
and drift is decided by the Chi-Squared two-sample test on these flags;
with the default uncertainty_type entropy the Kolmogorov-Smirnov
two-sample test is applied to the continuous entropy values. -/
theorem margin_uncertainty_chi_squared {X : Type} (w : ℚ) (probs : List ℚ)
    (ef : List ℚ → ℚ) (preds : List (List ℚ)) (cfg : ClassifierUncertaintyConfig)
    (model : X → List ℚ) (x_ref x : List X) (rp rd : Bool) :
    ((sortDesc probs).Perm probs) ∧
    (List.Sorted (· ≥ ·) (sortDesc probs)) ∧
    (marginUncertain probs w = true ↔ top2diff probs < w) ∧
    (uncertaintyScores UncertaintyType.margin ef w preds
      = preds.map (fun p => if marginUncertain p w then 1 else 0)) ∧
    (testForUncertainty UncertaintyType.margin = TwoSampleTest.chiSquared) ∧
    (testForUncertainty UncertaintyType.entropy = TwoSampleTest.kolmogorovSmirnov) ∧
    (uncertaintyScores UncertaintyType.entropy ef w preds = preds.map ef) ∧
    ((classifierUncertaintyPredict { cfg with uncertainty_type := UncertaintyType.margin }
        model x_ref x rp rd).data.is_drift
      = if (cfg.chi2Test
              (uncertaintyScores UncertaintyType.margin cfg.entropyFn cfg.margin_width
                (x_ref.map model))
              (uncertaintyScores UncertaintyType.margin cfg.entropyFn cfg.margin_width
                (x.map model))).2 < cfg.p_val
        then 1 else 0) ∧
    ((classifierUncertaintyPredict { cfg with uncertainty_type := UncertaintyType.entropy }
        model x_ref x rp rd).data.is_drift
      = if (cfg.ksTest
              (uncertaintyScores UncertaintyType.entropy cfg.entropyFn cfg.margin_width
                (x_ref.map model))
              (uncertaintyScores UncertaintyType.entropy cfg.entropyFn cfg.margin_width
                (x.map model))).2 < cfg.p_val
        then 1 else 0) := by
  refine ⟨List.perm_insertionSort _ probs, List.sorted_insertionSort _ probs, ?_,
    rfl, rfl, rfl, rfl, rfl, rfl⟩
  unfold marginUncertain
  exact decide_eq_true_iff

/-- Claim C6: no operation of the documented detector interface has a
specified error condition anywhere in the supplied content. -/
theorem no_documented_error_conditions :
    ∀ op, op ∈ documentedInterface → op.errorConditions = [] := by
  intro op h
  simp only [documentedInterface, List.mem_cons, List.not_mem_nil, or_false] at h
  rcases h with h | h | h | h | h | h <;> subst h <;> rfl

/-- Witness for claim C6 at the predict operation of ContextMMDDrift. -/
theorem no_documented_error_conditions_witness :
    ({ detector := "ContextMMDDrift", operation := "predict", errorConditions := [] }
        : DocumentedOperation).errorConditions = [] :=
  no_documented_error_conditions _ (by decide)

/-- Claim C7: with the PyTorch backend, an unspecified device (default
None) selects the GPU when it is available and falls back on the CPU
otherwise, and an explicitly specified device string is a documented
device exactly when it is one of cuda, gpu or cpu. -/
theorem device_resolution :
    (resolveDevice none true = some TorchDevice.gpu) ∧
    (resolveDevice none false = some TorchDevice.cpu) ∧
    (parseDevice "cuda" = some TorchDevice.gpu) ∧
    (parseDevice "gpu" = some TorchDevice.gpu) ∧
    (parseDevice "cpu" = some TorchDevice.cpu) ∧
    (∀ s : String, (parseDevice s).isSome = true ↔ s ∈ validDeviceStrings) ∧
    (∀ s : String, resolveDevice (some s) true = parseDevice s) := by
  refine ⟨rfl, rfl, rfl, rfl, rfl, ?_, fun s => rfl⟩
  intro s
  unfold parseDevice validDeviceStrings
  split_ifs with h1 h2 h3 <;> simp_all

/-- Claim C8: the preprocessing function is applied to the data windows
x_ref and x before the drift metrics are computed, while the context
windows c_ref and c are never preprocessed and reach the context kernel
unchanged: predicting with preprocess_fn f on raw data equals predicting
with no preprocessing on the mapped data, with identical contexts. -/
theorem context_never_preprocessed {X C : Type} (cfg : ContextMMDConfig X C)
    (f : X → X) (x_ref x : List X) (c_ref c : List C) (rp rd rc : Bool) :
    (contextMMDPredict { cfg with preprocess_fn := some f } x_ref x c_ref c rp rd rc
      = contextMMDPredict { cfg with preprocess_fn := none }
          (x_ref.map f) (x.map f) c_ref c rp rd rc) ∧
    (contextMMDStat cfg x_ref x c_ref c
      = cfg.cmmd cfg.x_kernel cfg.c_kernel
          (preprocessData cfg.preprocess_fn x_ref) (preprocessData cfg.preprocess_fn x)
          c_ref c) ∧
    ((contextMMDPredict cfg x_ref x c_ref c rp rd true).data.coupling_xy
      = some (cfg.couplings cfg.c_kernel c_ref c).2.2) :=
  ⟨rfl, rfl, rfl⟩

/-- Claim C9, counterexample: testable properties can be derived from the
supplied content; the documentation states the literal default 32 for
batch_size, and a concrete predict call satisfies the documented 0-or-1
contract of the drift flag. -/
theorem literal_defaults_derivable_counterexample :
    (("batch_size", 32) ∈ documentedNumericDefaults) ∧
    (documentedNumericDefaults ≠ []) ∧
    ((classifierUncertaintyPredict demoClassifierConfig demoModel [0] [1] true true).data.is_drift
        = 0 ∨
      (classifierUncertaintyPredict demoClassifierConfig demoModel [0] [1] true true).data.is_drift
        = 1) :=
  ⟨by decide, by decide, classifier_is_drift_01 demoClassifierConfig demoModel [0] [1] true true⟩

/-- Claim C9 (amended): a few testable properties are derivable from the
supplied content, namely the literal batch_size default of 32 and the
0-or-1 invariant of the drift flag; beyond such documented contracts no
further literal input-output pairs appear in the source material. -/
theorem documented_testable_properties {X C Y : Type} (cfg : ContextMMDConfig X C)
    (x_ref x : List X) (c_ref c : List C) (rp rd rc : Bool)
    (ucfg : ClassifierUncertaintyConfig) (model : Y → List ℚ) (y_ref y : List Y)
    (rp2 rd2 : Bool) :
    (documentedNumericDefaults = [("batch_size", 32)]) ∧
    ((contextMMDPredict cfg x_ref x c_ref c rp rd rc).data.is_drift = 0 ∨
      (contextMMDPredict cfg x_ref x c_ref c rp rd rc).data.is_drift = 1) ∧
    ((classifierUncertaintyPredict ucfg model y_ref y rp2 rd2).data.is_drift = 0 ∨
      (classifierUncertaintyPredict ucfg model y_ref y rp2 rd2).data.is_drift = 1) :=
  ⟨rfl, contextMMD_is_drift_01 cfg x_ref x c_ref c rp rd rc,
    classifier_is_drift_01 ucfg model y_ref y rp2 rd2⟩

/-- Claim C10: the supplied source consists solely of one development
dependency manifest and two documentation notebooks, none of which is an
executable module. -/
theorem supplied_source_inventory :
    (suppliedSource.length = 3) ∧
    ((suppliedSource.filter
        (fun a => a.kind == ArtifactKind.dependencyManifest)).length = 1) ∧
    ((suppliedSource.filter
        (fun a => a.kind == ArtifactKind.documentationNotebook)).length = 2) ∧
    ((suppliedSource.filter
        (fun a => a.kind == ArtifactKind.executableModule)).length = 0) := by
  decide

end AlibiDetect
